import Mathlib

/-!
Verification of `pkg/terminal/p400/stripe_requests.go` (Stripe CLI, P400
terminal quickstart request layer).

The Go file defines six operations (DiscoverReaders, StartNewRPCSession,
GetNewConnectionToken, CreatePaymentIntent, CapturePaymentIntent,
RegisterReader) that each issue a single HTTP request against the Stripe
platform and decode a JSON response.  This file gives a shallow embedding:

* response bodies are modelled as parsed JSON values (`Option JSONValue`,
  with `none` standing for a syntactically malformed body);
* the decoders mirror `encoding/json` field-by-field decoding into the
  response structs of the source (unknown fields ignored, `null` is a
  no-op, a missing field leaves the zero value, a type mismatch leaves the
  zero value and records a decode error which the source discards);
* the transport is a parameter `HTTPRequest → TransportResult`, so each
  operation is a pure function of the session context and the transport;
* each operation returns, besides the Go function's return values, an
  observation record: the requests issued in order, how many response
  bodies were acquired and closed, the index of the source return
  statement that produced the result, and the operation's view of the
  session context at return (the Go functions receive the context struct
  by value and never assign to it).
-/

/-! ## JSON values and Go `encoding/json` decoding -/

/-- Parsed JSON value.  A response body is `Option JSONValue`; `none`
models a body that is not syntactically valid JSON, in which case Go's
decoder reports a syntax error and leaves the target struct zero-valued. -/
inductive JSONValue where
  | null : JSONValue
  | bool (b : Bool) : JSONValue
  | num (n : Int) : JSONValue
  | str (s : String) : JSONValue
  | arr (xs : List JSONValue) : JSONValue
  | obj (fields : List (String × JSONValue)) : JSONValue

/-- Look up a key in a JSON object's field list.  `encoding/json` assigns
fields in encounter order, so for a duplicated key the last occurrence
wins: we search the reversed list. -/
def jsonLookup (fields : List (String × JSONValue)) (k : String) : Option JSONValue :=
  (fields.reverse.find? (fun p => p.1 == k)).map (fun p => p.2)

/-- Decode a `string`-typed struct field: missing field or JSON `null`
leave the zero value with no error; a non-string value leaves the zero
value and records an `UnmarshalTypeError` (which `encoding/json` saves and
then continues decoding the remaining fields). -/
def decStrField (fields : List (String × JSONValue)) (k : String) : String × Bool :=
  match jsonLookup fields k with
  | Option.none => ("", false)
  | Option.some JSONValue.null => ("", false)
  | Option.some (JSONValue.str s) => (s, false)
  | Option.some _ => ("", true)

/-- Decode a `bool`-typed struct field, with the same conventions as
`decStrField`. -/
def decBoolField (fields : List (String × JSONValue)) (k : String) : Bool × Bool :=
  match jsonLookup fields k with
  | Option.none => (false, false)
  | Option.some JSONValue.null => (false, false)
  | Option.some (JSONValue.bool b) => (b, false)
  | Option.some _ => (false, true)

/-! ## Data model of the source file -/

/-- Metadata belongs to the Stripe P400 reader object (empty struct in the
source; any JSON object decodes into it, unknown fields ignored). -/
structure Metadata where
deriving Repr, DecidableEq

/-- Reader represents the Stripe P400 reader object shape
(`json` tags: id, object, device_software_version, device_type,
ip_address, label, livemode, location, serial_number, status, metadata). -/
structure Reader where
  ID : String
  Object : String
  DeviceSwVersion : String
  DeviceType : String
  IPAddress : String
  Label : String
  Livemode : Bool
  Location : String
  SerialNumber : String
  Status : String
  Metadata : Metadata
deriving Repr, DecidableEq

/-- Zero value of `Reader` (Go `var` default). -/
def Reader.zero : Reader :=
  ⟨"", "", "", "", "", "", false, "", "", "", ⟨⟩⟩

/-- Paginated envelope returned by the readers collection endpoint. -/
structure readersResponse where
  Error : String
  Object : String
  URL : String
  HasMore : Bool
  Data : List Reader
deriving Repr, DecidableEq

/-- Zero value of `readersResponse`. -/
def readersResponse.zero : readersResponse := ⟨"", "", "", false, []⟩

structure createPaymentIntentResponse where
  ID : String
deriving Repr, DecidableEq

structure startNewRPCSessionResponse where
  SDKRPCSessionToken : String
deriving Repr, DecidableEq

structure getConnectionTokenResponse where
  Secret : String
deriving Repr, DecidableEq

structure registerReaderResponse where
  IPAddress : String
deriving Repr, DecidableEq

/-- Decode one `Reader` from a JSON value (element of the `data` array).
`null` is a no-op; a non-object element records a type error and leaves
the zero value. -/
def decodeReader (v : JSONValue) : Reader × Bool :=
  match v with
  | JSONValue.null => (Reader.zero, false)
  | JSONValue.obj fs =>
    let id := decStrField fs "id"
    let ob := decStrField fs "object"
    let sw := decStrField fs "device_software_version"
    let dt := decStrField fs "device_type"
    let ip := decStrField fs "ip_address"
    let lb := decStrField fs "label"
    let lv := decBoolField fs "livemode"
    let lo := decStrField fs "location"
    let sn := decStrField fs "serial_number"
    let st := decStrField fs "status"
    let metaErr :=
      match jsonLookup fs "metadata" with
      | Option.none => false
      | Option.some JSONValue.null => false
      | Option.some (JSONValue.obj _) => false
      | Option.some _ => true
    (⟨id.1, ob.1, sw.1, dt.1, ip.1, lb.1, lv.1, lo.1, sn.1, st.1, ⟨⟩⟩,
     id.2 || ob.2 || sw.2 || dt.2 || ip.2 || lb.2 || lv.2 || lo.2 || sn.2 || st.2 || metaErr)
  | _ => (Reader.zero, true)

/-- Decode the `data : []Reader` field.  On a type error inside an array
element `encoding/json` saves the error and continues with the remaining
elements, so every element is decoded and the error flags are joined. -/
def decodeDataField (fields : List (String × JSONValue)) : List Reader × Bool :=
  match jsonLookup fields "data" with
  | Option.none => ([], false)
  | Option.some JSONValue.null => ([], false)
  | Option.some (JSONValue.arr xs) =>
    let ds := xs.map decodeReader
    (ds.map (fun p => p.1), ds.any (fun p => p.2))
  | Option.some _ => ([], true)

/-- Decode a `readersResponse` from a response body.  The second component
records whether the decode produced an error; the source discards it. -/
def decodeReadersResponse (body : Option JSONValue) : readersResponse × Bool :=
  match body with
  | Option.none => (readersResponse.zero, true)
  | Option.some JSONValue.null => (readersResponse.zero, false)
  | Option.some (JSONValue.obj fs) =>
    let er := decStrField fs "error"
    let ob := decStrField fs "object"
    let ur := decStrField fs "url"
    let hm := decBoolField fs "has_more"
    let da := decodeDataField fs
    (⟨er.1, ob.1, ur.1, hm.1, da.1⟩, er.2 || ob.2 || ur.2 || hm.2 || da.2)
  | Option.some _ => (readersResponse.zero, true)

/-- Decode a `createPaymentIntentResponse` (field `id`). -/
def decodeCreatePaymentIntentResponse (body : Option JSONValue) :
    createPaymentIntentResponse × Bool :=
  match body with
  | Option.none => (⟨""⟩, true)
  | Option.some JSONValue.null => (⟨""⟩, false)
  | Option.some (JSONValue.obj fs) =>
    let id := decStrField fs "id"
    (⟨id.1⟩, id.2)
  | Option.some _ => (⟨""⟩, true)

/-- Decode a `startNewRPCSessionResponse` (field `sdk_rpc_session_token`). -/
def decodeStartNewRPCSessionResponse (body : Option JSONValue) :
    startNewRPCSessionResponse × Bool :=
  match body with
  | Option.none => (⟨""⟩, true)
  | Option.some JSONValue.null => (⟨""⟩, false)
  | Option.some (JSONValue.obj fs) =>
    let tk := decStrField fs "sdk_rpc_session_token"
    (⟨tk.1⟩, tk.2)
  | Option.some _ => (⟨""⟩, true)

/-- Decode a `getConnectionTokenResponse` (field `secret`). -/
def decodeGetConnectionTokenResponse (body : Option JSONValue) :
    getConnectionTokenResponse × Bool :=
  match body with
  | Option.none => (⟨""⟩, true)
  | Option.some JSONValue.null => (⟨""⟩, false)
  | Option.some (JSONValue.obj fs) =>
    let sc := decStrField fs "secret"
    (⟨sc.1⟩, sc.2)
  | Option.some _ => (⟨""⟩, true)

/-- Decode a `registerReaderResponse` (field `ip_address`). -/
def decodeRegisterReaderResponse (body : Option JSONValue) :
    registerReaderResponse × Bool :=
  match body with
  | Option.none => (⟨""⟩, true)
  | Option.some JSONValue.null => (⟨""⟩, false)
  | Option.some (JSONValue.obj fs) =>
    let ip := decStrField fs "ip_address"
    (⟨ip.1⟩, ip.2)
  | Option.some _ => (⟨""⟩, true)

/-! ## Session context (defined elsewhere in the repository) -/

/-- Modelled from the spec: Device Identity record, "{DeviceClass,
DeviceUUID, HostOSVersion, HardwareModel.POSInfo.Description,
AppModel.AppID, AppModel.AppVersion} — static descriptive strings supplied
by the caller"; the struct itself is defined outside the provided source
file, and these are exactly the fields the source reads. -/
structure POSInfo where
  Description : String
deriving Repr, DecidableEq

structure HardwareModel where
  POSInfo : POSInfo
deriving Repr, DecidableEq

structure AppModel where
  AppID : String
  AppVersion : String
deriving Repr, DecidableEq

structure DeviceInfo where
  DeviceClass : String
  DeviceUUID : String
  HostOSVersion : String
  HardwareModel : HardwareModel
  AppModel : AppModel
deriving Repr, DecidableEq

/-- Modelled from the spec: the Session Context, "{APIKey: credential
string, DeviceInfo: device identity record, PstToken: bearer token for RPC
session requests, Amount: integer minor-currency units, Currency: ISO
currency code string, PaymentIntentID: identifier of the in-flight payment
intent}".  The struct is defined outside the provided source file; these
are exactly the fields the source reads. -/
structure TerminalSessionContext where
  APIKey : String
  DeviceInfo : DeviceInfo
  PstToken : String
  Amount : Int
  Currency : String
  PaymentIntentID : String
deriving Repr, DecidableEq

/-! ## HTTP model, errors, and execution observations -/

/-- Outgoing HTTP request as the operations build it. -/
structure HTTPRequest where
  method : String
  url : String
  headers : List (String × String)
  body : String
deriving Repr, DecidableEq

/-- Incoming HTTP response: status code plus the (parsed) JSON body. -/
structure HTTPResponse where
  StatusCode : Nat
  Body : Option JSONValue

/-- Outcome of handing a request to the transport.  Go's HTTP client
returns a nil response exactly when it returns a non-nil error, so a
transport failure carries no response body. -/
inductive TransportResult where
  | failure (msg : String)
  | success (res : HTTPResponse)

/-- Go error values the operations can return.  `Option GoError` stands
for Go's `error` (with `none` for `nil`). -/
inductive GoError where
  | parseError (s : String)
  | newRequestError (s : String)
  | transportError (msg : String)
  | captureFailed
deriving Repr, DecidableEq

/-- Observation record of one operation execution: the requests issued in
order, the number of response bodies acquired from the transport, and the
number of times the response body was closed. -/
structure ExecTrace where
  requests : List HTTPRequest
  bodiesAcquired : Nat
  bodyCloses : Nat
deriving Repr, DecidableEq

/-- Result of one operation execution: the Go function's return values
(`value`, `err`), the execution observations, the operation's view of the
session context at return (the Go functions receive the context by value
and never assign to it), and the index of the source `return` statement
that produced the result. -/
structure OpResult (α : Type) where
  value : α
  err : Option GoError
  trace : ExecTrace
  finalCtx : TerminalSessionContext
  site : Nat
deriving Repr, DecidableEq

/-! ## Models of the Go standard library pieces the source uses -/

/-- ASCII control characters, which `net/url` rejects in URLs. -/
def isCtlChar (c : Char) : Bool := c.toNat < 32 || c.toNat == 127

/-- Model of Go `url.Parse`: fails exactly on strings containing an ASCII
control character (net/url's "invalid control character in URL", the
failure mode relevant to the constant absolute URLs parsed here).  The
parsed URL is kept in its string form, since the source only stringifies
or concatenates it. -/
def goUrlParse (s : String) : String × Option GoError :=
  if s.data.any isCtlChar then ("", Option.some (GoError.parseError s))
  else (s, Option.none)

/-- Model of Go `url.Values.Set`: replace any previous value of the key
(a `url.Values` is a map, so each key occurs at most once). -/
def valuesSet (vs : List (String × String)) (k v : String) : List (String × String) :=
  vs.filter (fun p => !(p.1 == k)) ++ [(k, v)]

/-- Hexadecimal digit characters, uppercase as `net/url` emits them. -/
def hexDigitChar (n : Nat) : Char :=
  if n < 10 then Char.ofNat (48 + n) else Char.ofNat (55 + n)

/-- Percent-escape of one byte, `%XX`. -/
def percentByte (b : Nat) : String :=
  String.mk ['%', hexDigitChar (b / 16), hexDigitChar (b % 16)]

/-- UTF-8 bytes of a character (Go strings are UTF-8 and `net/url`
escapes byte by byte). -/
def utf8Bytes (c : Char) : List Nat :=
  let n := c.toNat
  if n < 128 then [n]
  else if n < 2048 then [192 + n / 64, 128 + n % 64]
  else if n < 65536 then [224 + n / 4096, 128 + n / 64 % 64, 128 + n % 64]
  else [240 + n / 262144, 128 + n / 4096 % 64, 128 + n / 64 % 64, 128 + n % 64]

/-- Characters `url.QueryEscape` leaves unescaped: ASCII letters, digits,
and `-`, `_`, `.`, `~`. -/
def isUnreservedQueryChar (c : Char) : Bool :=
  (65 ≤ c.toNat && c.toNat ≤ 90) || (97 ≤ c.toNat && c.toNat ≤ 122) ||
    (48 ≤ c.toNat && c.toNat ≤ 57) || c == '-' || c == '_' || c == '.' || c == '~'

/-- Model of Go `url.QueryEscape` on one character: space becomes `+`,
unreserved characters stay, everything else is percent-escaped bytewise. -/
def queryEscapeChar (c : Char) : String :=
  if c == ' ' then "+"
  else if isUnreservedQueryChar c then String.singleton c
  else String.join ((utf8Bytes c).map percentByte)

/-- Model of Go `url.QueryEscape`. -/
def queryEscape (s : String) : String :=
  String.join (s.toList.map queryEscapeChar)

/-- Insert a key-value pair into a list sorted by key (used to model the
key sorting `url.Values.Encode` performs). -/
def insertByKey (p : String × String) : List (String × String) → List (String × String)
  | [] => [p]
  | q :: qs => if q.1 < p.1 then q :: insertByKey p qs else p :: q :: qs

/-- Sort a field list by key. -/
def sortByKey (vs : List (String × String)) : List (String × String) :=
  vs.foldr insertByKey []

/-- Model of Go `url.Values.Encode`: keys sorted, each key and value
query-escaped, pairs joined with `=` and `&`. -/
def valuesEncode (vs : List (String × String)) : String :=
  String.intercalate "&"
    ((sortByKey vs).map (fun p => queryEscape p.1 ++ "=" ++ queryEscape p.2))

/-- Model of Go `http.Header.Set`: replace any previous value of the key. -/
def setHeader (hs : List (String × String)) (k v : String) : List (String × String) :=
  hs.filter (fun p => !(p.1 == k)) ++ [(k, v)]

/-- Model of Go `http.NewRequest`: parses the URL (failing as `url.Parse`
does) and returns a request with no headers yet and the given body. -/
def httpNewRequest (method urlStr body : String) : HTTPRequest × Option GoError :=
  match goUrlParse urlStr with
  | (_, Option.some _) =>
    (⟨method, "", [], body⟩, Option.some (GoError.newRequestError urlStr))
  | (u, Option.none) => (⟨method, u, [], body⟩, Option.none)

/-- Substitute every `%s` placeholder in a character list by the argument
string (helper for the `fmt.Sprintf` model). -/
def substPercentS : List Char → String → List Char
  | [], _ => []
  | '%' :: 's' :: rest, arg => arg.data ++ substPercentS rest arg
  | c :: rest, arg => c :: substPercentS rest arg

/-- Model of Go `fmt.Sprintf` with a single string verb, as used for the
capture endpoint: `fmt.Sprintf(format, arg)` with one `%s` in `format`. -/
def sprintfS (fmtStr arg : String) : String := String.mk (substPercentS fmtStr.data arg)

/-- Mirror of Go `http.StatusOK`. -/
def StatusOK : Nat := 200

/-! ## Constants defined elsewhere in the repository -/

/-- Modelled from the spec: "a process-wide base-URL configuration value".
In the source this is `stripe.DefaultAPIBaseURL`, a fixed well-formed
absolute-URL constant defined outside the provided source file. -/
def DefaultAPIBaseURL : String := "https://api.stripe.com"

/-- Modelled from the spec: the "list readers" endpoint path ("readers
collection endpoint"); constant defined outside the provided source file. -/
def stripeTerminalReadersPath : String := "/v1/terminal/readers"

/-- Modelled from the spec: the reader "registration endpoint" path;
constant defined outside the provided source file. -/
def stripeTerminalRegisterPath : String := "/v1/terminal/readers"

/-- Modelled from the spec: the "connection-token endpoint" path;
constant defined outside the provided source file. -/
def stripeTerminalConnectionTokensPath : String := "/v1/terminal/connection_tokens"

/-- Modelled from the spec: the payment-intent creation endpoint path;
constant defined outside the provided source file. -/
def stripeCreatePaymentIntentPath : String := "/v1/payment_intents"

/-- Modelled from the spec: the "capture endpoint parameterized by
`ctx.PaymentIntentID`" as a format string with a `%s` placeholder;
constant defined outside the provided source file. -/
def stripeCapturePaymentIntentPath : String := "/v1/payment_intents/%s/capture"

/-- Modelled from the spec: the "RPC-session endpoint" path ("a
device-session endpoint"); constant defined outside the provided source
file. -/
def rpcSessionPath : String := "/rpc/session"

/-- Modelled from the spec: "a dedicated sentinel error kind returned only
by the capture operation, decoupled from the underlying transport/status
cause".  The sentinel value `ErrCapturePaymentIntentFailed` is defined
outside the provided source file; it carries no underlying cause. -/
def ErrCapturePaymentIntentFailed : GoError := GoError.captureFailed

/-- Mirror of the `stripe.Client` struct fields the source sets. -/
structure Client where
  BaseURL : String
  APIKey : String
  Verbose : Bool
deriving Repr, DecidableEq

/-- Modelled from the spec: the HTTP Client Adapter's `PerformRequest`,
"a generic authenticated-HTTP-request function taking (context, method,
path, encoded-body, headers)" that "sends signed/authenticated requests"
— it authenticates with the client's API key as the bearer credential
(the spec's endpoint table lists auth "API key" for every operation that
goes through it).  Only the emitted request is modelled here; transport
behaviour is the `transport` parameter of each operation. -/
def performRequestReq (client : Client) (method path params : String) : HTTPRequest :=
  ⟨method, client.BaseURL ++ path,
   [("Authorization", "Bearer " ++ client.APIKey)], params⟩

/-! ## The six operations (from `stripe_requests.go`)

Return-site indices number the `return` statements of each Go function in
source order: for `DiscoverReaders` site 1 is the `url.Parse` error
return, site 2 the duplicated second `err` check, site 3 the combined
transport-error / non-200 return, site 4 the success return; the other
operations are numbered the same way (they lack the duplicated check). -/

/-- Form data built by `StartNewRPCSession` (six device-descriptor fields
set in order on a fresh `url.Values`). -/
def rpcSessionData (tsCtx : TerminalSessionContext) : List (String × String) :=
  let d0 : List (String × String) := []
  let d1 := valuesSet d0 "pos_device_info[device_class]" tsCtx.DeviceInfo.DeviceClass
  let d2 := valuesSet d1 "pos_device_info[device_uuid]" tsCtx.DeviceInfo.DeviceUUID
  let d3 := valuesSet d2 "pos_device_info[host_os_version]" tsCtx.DeviceInfo.HostOSVersion
  let d4 := valuesSet d3 "pos_device_info[hardware_model][pos_info][description]"
    tsCtx.DeviceInfo.HardwareModel.POSInfo.Description
  let d5 := valuesSet d4 "pos_device_info[app_model][app_id]" tsCtx.DeviceInfo.AppModel.AppID
  let d6 := valuesSet d5 "pos_device_info[app_model][app_version]"
    tsCtx.DeviceInfo.AppModel.AppVersion
  d6

/-- Form data built by `CreatePaymentIntent`: amount (via `strconv.Itoa`),
currency, payment method type, capture method, fixed description. -/
def createPaymentIntentData (tsCtx : TerminalSessionContext) : List (String × String) :=
  let amountStr := toString tsCtx.Amount
  let d0 : List (String × String) := []
  let d1 := valuesSet d0 "amount" amountStr
  let d2 := valuesSet d1 "currency" tsCtx.Currency
  let d3 := valuesSet d2 "payment_method_types[]" "card_present"
  let d4 := valuesSet d3 "capture_method" "manual"
  let d5 := valuesSet d4 "description" "Stripe CLI Test Payment"
  d5

/-- Form data built by `RegisterReader`: the registration code. -/
def registerReaderData (regcode : String) : List (String × String) :=
  valuesSet [] "registration_code" regcode

/-- DiscoverReaders calls the Stripe API to get a list of currently
registered P400 readers on the account; it returns the decoded `data`
array of the envelope. -/
def DiscoverReaders (tsCtx : TerminalSessionContext)
    (transport : HTTPRequest → TransportResult) : OpResult (List Reader) :=
  match goUrlParse DefaultAPIBaseURL with
  | (parsedBaseURL, err) =>
    if err.isSome then ⟨[], err, ⟨[], 0, 0⟩, tsCtx, 1⟩
    else
      let readersList : List Reader := []
      if err.isSome then ⟨readersList, err, ⟨[], 0, 0⟩, tsCtx, 2⟩
      else
        let client : Client := ⟨parsedBaseURL, tsCtx.APIKey, false⟩
        let req := performRequestReq client "GET" stripeTerminalReadersPath ""
        match transport req with
        | TransportResult.failure msg =>
          ⟨readersList, Option.some (GoError.transportError msg), ⟨[req], 0, 0⟩, tsCtx, 3⟩
        | TransportResult.success res =>
          if res.StatusCode ≠ StatusOK then
            ⟨readersList, Option.none, ⟨[req], 1, 0⟩, tsCtx, 3⟩
          else
            let result := decodeReadersResponse res.Body
            ⟨result.1.Data, Option.none, ⟨[req], 1, 1⟩, tsCtx, 4⟩

/-- StartNewRPCSession calls the Stripe API for a new RPC session token
for interacting with a P400 reader.  The request is built by
`http.NewRequest`, then given its `Content-Type` header and an
`Authorization` header whose bearer credential is `tsCtx.PstToken`. -/
def StartNewRPCSession (tsCtx : TerminalSessionContext)
    (transport : HTTPRequest → TransportResult) : OpResult String :=
  match goUrlParse DefaultAPIBaseURL with
  | (parsedBaseURL, err) =>
    if err.isSome then ⟨"", err, ⟨[], 0, 0⟩, tsCtx, 1⟩
    else
      let stripeTerminalRPCSessionURL := parsedBaseURL ++ rpcSessionPath
      let data := rpcSessionData tsCtx
      let encodedURLData := valuesEncode data
      match httpNewRequest "POST" stripeTerminalRPCSessionURL encodedURLData with
      | (request0, err2) =>
        if err2.isSome then ⟨"", err2, ⟨[], 0, 0⟩, tsCtx, 2⟩
        else
          let h1 := setHeader request0.headers "Content-Type" "application/x-www-form-urlencoded"
          let h2 := setHeader h1 "Authorization" ("Bearer " ++ tsCtx.PstToken)
          let request := { request0 with headers := h2 }
          match transport request with
          | TransportResult.failure msg =>
            ⟨"", Option.some (GoError.transportError msg), ⟨[request], 0, 0⟩, tsCtx, 3⟩
          | TransportResult.success res =>
            if res.StatusCode ≠ StatusOK then
              ⟨"", Option.none, ⟨[request], 1, 0⟩, tsCtx, 3⟩
            else
              let result := decodeStartNewRPCSessionResponse res.Body
              let sessionToken := result.1.SDKRPCSessionToken
              ⟨sessionToken, Option.none, ⟨[request], 1, 1⟩, tsCtx, 4⟩

/-- GetNewConnectionToken calls the Stripe API and requests a new
connection token; it returns the decoded `secret`. -/
def GetNewConnectionToken (tsCtx : TerminalSessionContext)
    (transport : HTTPRequest → TransportResult) : OpResult String :=
  match goUrlParse DefaultAPIBaseURL with
  | (parsedBaseURL, err) =>
    if err.isSome then ⟨"", err, ⟨[], 0, 0⟩, tsCtx, 1⟩
    else
      let client : Client := ⟨parsedBaseURL, tsCtx.APIKey, false⟩
      let req := performRequestReq client "POST" stripeTerminalConnectionTokensPath ""
      match transport req with
      | TransportResult.failure msg =>
        ⟨"", Option.some (GoError.transportError msg), ⟨[req], 0, 0⟩, tsCtx, 2⟩
      | TransportResult.success res =>
        if res.StatusCode ≠ StatusOK then
          ⟨"", Option.none, ⟨[req], 1, 0⟩, tsCtx, 2⟩
        else
          let result := decodeGetConnectionTokenResponse res.Body
          let pstToken := result.1.Secret
          ⟨pstToken, Option.none, ⟨[req], 1, 1⟩, tsCtx, 3⟩

/-- CreatePaymentIntent calls the Stripe API to create a new payment
intent; it returns the decoded intent id. -/
def CreatePaymentIntent (tsCtx : TerminalSessionContext)
    (transport : HTTPRequest → TransportResult) : OpResult String :=
  match goUrlParse DefaultAPIBaseURL with
  | (parsedBaseURL, err) =>
    if err.isSome then ⟨"", err, ⟨[], 0, 0⟩, tsCtx, 1⟩
    else
      let client : Client := ⟨parsedBaseURL, tsCtx.APIKey, false⟩
      let data := createPaymentIntentData tsCtx
      let req := performRequestReq client "POST" stripeCreatePaymentIntentPath
        (valuesEncode data)
      match transport req with
      | TransportResult.failure msg =>
        ⟨"", Option.some (GoError.transportError msg), ⟨[req], 0, 0⟩, tsCtx, 2⟩
      | TransportResult.success res =>
        if res.StatusCode ≠ StatusOK then
          ⟨"", Option.none, ⟨[req], 1, 0⟩, tsCtx, 2⟩
        else
          let result := decodeCreatePaymentIntentResponse res.Body
          let paymentIntentID := result.1.ID
          ⟨paymentIntentID, Option.none, ⟨[req], 1, 1⟩, tsCtx, 3⟩

/-- CapturePaymentIntent manually captures the payment intent; it returns
only an error (modelled as `OpResult Unit`).  Both the transport-error and
the non-200 branch return the sentinel `ErrCapturePaymentIntentFailed`;
the success branch closes the body and returns nil. -/
def CapturePaymentIntent (tsCtx : TerminalSessionContext)
    (transport : HTTPRequest → TransportResult) : OpResult Unit :=
  match goUrlParse DefaultAPIBaseURL with
  | (parsedBaseURL, err) =>
    if err.isSome then ⟨(), err, ⟨[], 0, 0⟩, tsCtx, 1⟩
    else
      let stripeCapturePaymentIntentURL :=
        sprintfS stripeCapturePaymentIntentPath tsCtx.PaymentIntentID
      let client : Client := ⟨parsedBaseURL, tsCtx.APIKey, false⟩
      let req := performRequestReq client "POST" stripeCapturePaymentIntentURL ""
      match transport req with
      | TransportResult.failure _ =>
        ⟨(), Option.some ErrCapturePaymentIntentFailed, ⟨[req], 0, 0⟩, tsCtx, 2⟩
      | TransportResult.success res =>
        if res.StatusCode ≠ StatusOK then
          ⟨(), Option.some ErrCapturePaymentIntentFailed, ⟨[req], 1, 0⟩, tsCtx, 2⟩
        else
          ⟨(), Option.none, ⟨[req], 1, 1⟩, tsCtx, 3⟩

/-- RegisterReader calls the Stripe API to register a new P400 reader to
an account; it returns the decoded `ip_address`. -/
def RegisterReader (regcode : String) (tsCtx : TerminalSessionContext)
    (transport : HTTPRequest → TransportResult) : OpResult String :=
  match goUrlParse DefaultAPIBaseURL with
  | (parsedBaseURL, err) =>
    if err.isSome then ⟨"", err, ⟨[], 0, 0⟩, tsCtx, 1⟩
    else
      let client : Client := ⟨parsedBaseURL, tsCtx.APIKey, false⟩
      let data := registerReaderData regcode
      let req := performRequestReq client "POST" stripeTerminalRegisterPath
        (valuesEncode data)
      match transport req with
      | TransportResult.failure msg =>
        ⟨"", Option.some (GoError.transportError msg), ⟨[req], 0, 0⟩, tsCtx, 2⟩
      | TransportResult.success res =>
        if res.StatusCode ≠ StatusOK then
          ⟨"", Option.none, ⟨[req], 1, 0⟩, tsCtx, 2⟩
        else
          let result := decodeRegisterReaderResponse res.Body
          let IPAddress := result.1.IPAddress
          ⟨IPAddress, Option.none, ⟨[req], 1, 1⟩, tsCtx, 3⟩

/-! ## Characterization of the operations

Each operation parses the constant base URL (which succeeds), builds one
request, and hands it to the transport once; the lemmas below expose that
request and the branch structure, and are proved by `rfl`. -/

/-- Model of Go `http.Header.Get`: the value stored for the key. -/
def getHeader (r : HTTPRequest) (k : String) : Option String :=
  (r.headers.find? (fun p => p.1 == k)).map (fun p => p.2)

/-- The single request `DiscoverReaders` issues. -/
def discoverRequest (tsCtx : TerminalSessionContext) : HTTPRequest :=
  performRequestReq ⟨DefaultAPIBaseURL, tsCtx.APIKey, false⟩ "GET" stripeTerminalReadersPath ""

/-- The single request `StartNewRPCSession` issues. -/
def rpcSessionRequest (tsCtx : TerminalSessionContext) : HTTPRequest :=
  ⟨"POST", DefaultAPIBaseURL ++ rpcSessionPath,
   [("Content-Type", "application/x-www-form-urlencoded"),
    ("Authorization", "Bearer " ++ tsCtx.PstToken)],
   valuesEncode (rpcSessionData tsCtx)⟩

/-- The single request `GetNewConnectionToken` issues. -/
def connectionTokenRequest (tsCtx : TerminalSessionContext) : HTTPRequest :=
  performRequestReq ⟨DefaultAPIBaseURL, tsCtx.APIKey, false⟩ "POST"
    stripeTerminalConnectionTokensPath ""

/-- The single request `CreatePaymentIntent` issues. -/
def createPaymentIntentRequest (tsCtx : TerminalSessionContext) : HTTPRequest :=
  performRequestReq ⟨DefaultAPIBaseURL, tsCtx.APIKey, false⟩ "POST"
    stripeCreatePaymentIntentPath (valuesEncode (createPaymentIntentData tsCtx))

/-- The single request `CapturePaymentIntent` issues. -/
def captureRequest (tsCtx : TerminalSessionContext) : HTTPRequest :=
  performRequestReq ⟨DefaultAPIBaseURL, tsCtx.APIKey, false⟩ "POST"
    (sprintfS stripeCapturePaymentIntentPath tsCtx.PaymentIntentID) ""

/-- The single request `RegisterReader` issues. -/
def registerRequest (regcode : String) (tsCtx : TerminalSessionContext) : HTTPRequest :=
  performRequestReq ⟨DefaultAPIBaseURL, tsCtx.APIKey, false⟩ "POST"
    stripeTerminalRegisterPath (valuesEncode (registerReaderData regcode))

/-- Test for an error value being a URL-parse error. -/
def isParseErr : Option GoError → Bool
  | Option.some (GoError.parseError _) => true
  | _ => false

/-- Concrete session context used by the concrete evaluations below. -/
def ctx0 : TerminalSessionContext :=
  ⟨"sk_test_key", ⟨"pos", "uuid-1", "14.0", ⟨⟨"desc"⟩⟩, ⟨"app", "1.0"⟩⟩,
   "pst_tok", 100, "usd", "pi_123"⟩

/-- Concrete 200-envelope body with two distinct reader ids, in order. -/
def bodyTmr12 : Option JSONValue :=
  Option.some (JSONValue.obj [("data", JSONValue.arr
    [JSONValue.obj [("id", JSONValue.str "tmr_1")],
     JSONValue.obj [("id", JSONValue.str "tmr_2")]]),
    ("has_more", JSONValue.bool false)])

/-- Concrete 200-envelope body whose `data` repeats the same reader id. -/
def bodyDupIds : Option JSONValue :=
  Option.some (JSONValue.obj [("data", JSONValue.arr
    [JSONValue.obj [("id", JSONValue.str "tmr_1")],
     JSONValue.obj [("id", JSONValue.str "tmr_1")]])])

theorem DiscoverReaders_eq (tsCtx : TerminalSessionContext)
    (transport : HTTPRequest → TransportResult) :
    DiscoverReaders tsCtx transport =
      match transport (discoverRequest tsCtx) with
      | TransportResult.failure msg =>
        ⟨[], Option.some (GoError.transportError msg), ⟨[discoverRequest tsCtx], 0, 0⟩, tsCtx, 3⟩
      | TransportResult.success res =>
        if res.StatusCode ≠ StatusOK then
          ⟨[], Option.none, ⟨[discoverRequest tsCtx], 1, 0⟩, tsCtx, 3⟩
        else
          ⟨(decodeReadersResponse res.Body).1.Data, Option.none,
           ⟨[discoverRequest tsCtx], 1, 1⟩, tsCtx, 4⟩ := rfl

set_option maxHeartbeats 1600000 in
theorem StartNewRPCSession_eq (tsCtx : TerminalSessionContext)
    (transport : HTTPRequest → TransportResult) :
    StartNewRPCSession tsCtx transport =
      match transport (rpcSessionRequest tsCtx) with
      | TransportResult.failure msg =>
        ⟨"", Option.some (GoError.transportError msg), ⟨[rpcSessionRequest tsCtx], 0, 0⟩, tsCtx, 3⟩
      | TransportResult.success res =>
        if res.StatusCode ≠ StatusOK then
          ⟨"", Option.none, ⟨[rpcSessionRequest tsCtx], 1, 0⟩, tsCtx, 3⟩
        else
          ⟨(decodeStartNewRPCSessionResponse res.Body).1.SDKRPCSessionToken, Option.none,
           ⟨[rpcSessionRequest tsCtx], 1, 1⟩, tsCtx, 4⟩ := rfl

theorem GetNewConnectionToken_eq (tsCtx : TerminalSessionContext)
    (transport : HTTPRequest → TransportResult) :
    GetNewConnectionToken tsCtx transport =
      match transport (connectionTokenRequest tsCtx) with
      | TransportResult.failure msg =>
        ⟨"", Option.some (GoError.transportError msg),
         ⟨[connectionTokenRequest tsCtx], 0, 0⟩, tsCtx, 2⟩
      | TransportResult.success res =>
        if res.StatusCode ≠ StatusOK then
          ⟨"", Option.none, ⟨[connectionTokenRequest tsCtx], 1, 0⟩, tsCtx, 2⟩
        else
          ⟨(decodeGetConnectionTokenResponse res.Body).1.Secret, Option.none,
           ⟨[connectionTokenRequest tsCtx], 1, 1⟩, tsCtx, 3⟩ := rfl

theorem CreatePaymentIntent_eq (tsCtx : TerminalSessionContext)
    (transport : HTTPRequest → TransportResult) :
    CreatePaymentIntent tsCtx transport =
      match transport (createPaymentIntentRequest tsCtx) with
      | TransportResult.failure msg =>
        ⟨"", Option.some (GoError.transportError msg),
         ⟨[createPaymentIntentRequest tsCtx], 0, 0⟩, tsCtx, 2⟩
      | TransportResult.success res =>
        if res.StatusCode ≠ StatusOK then
          ⟨"", Option.none, ⟨[createPaymentIntentRequest tsCtx], 1, 0⟩, tsCtx, 2⟩
        else
          ⟨(decodeCreatePaymentIntentResponse res.Body).1.ID, Option.none,
           ⟨[createPaymentIntentRequest tsCtx], 1, 1⟩, tsCtx, 3⟩ := rfl

theorem CapturePaymentIntent_eq (tsCtx : TerminalSessionContext)
    (transport : HTTPRequest → TransportResult) :
    CapturePaymentIntent tsCtx transport =
      match transport (captureRequest tsCtx) with
      | TransportResult.failure _ =>
        ⟨(), Option.some ErrCapturePaymentIntentFailed, ⟨[captureRequest tsCtx], 0, 0⟩, tsCtx, 2⟩
      | TransportResult.success res =>
        if res.StatusCode ≠ StatusOK then
          ⟨(), Option.some ErrCapturePaymentIntentFailed, ⟨[captureRequest tsCtx], 1, 0⟩, tsCtx, 2⟩
        else
          ⟨(), Option.none, ⟨[captureRequest tsCtx], 1, 1⟩, tsCtx, 3⟩ := rfl

theorem RegisterReader_eq (regcode : String) (tsCtx : TerminalSessionContext)
    (transport : HTTPRequest → TransportResult) :
    RegisterReader regcode tsCtx transport =
      match transport (registerRequest regcode tsCtx) with
      | TransportResult.failure msg =>
        ⟨"", Option.some (GoError.transportError msg),
         ⟨[registerRequest regcode tsCtx], 0, 0⟩, tsCtx, 2⟩
      | TransportResult.success res =>
        if res.StatusCode ≠ StatusOK then
          ⟨"", Option.none, ⟨[registerRequest regcode tsCtx], 1, 0⟩, tsCtx, 2⟩
        else
          ⟨(decodeRegisterReaderResponse res.Body).1.IPAddress, Option.none,
           ⟨[registerRequest regcode tsCtx], 1, 1⟩, tsCtx, 3⟩ := rfl

/-! ## Frame facts shared by several claims: the request list, the
unchanged context, the reachable return sites, and the absence of
URL-parse errors. -/

theorem DiscoverReaders_frame (tsCtx : TerminalSessionContext)
    (transport : HTTPRequest → TransportResult) :
    (DiscoverReaders tsCtx transport).trace.requests = [discoverRequest tsCtx] ∧
    (DiscoverReaders tsCtx transport).finalCtx = tsCtx ∧
    3 ≤ (DiscoverReaders tsCtx transport).site ∧
    isParseErr (DiscoverReaders tsCtx transport).err = false := by
  rw [DiscoverReaders_eq]
  cases transport (discoverRequest tsCtx) with
  | failure msg => exact ⟨rfl, rfl, Nat.le_refl _, rfl⟩
  | success res =>
    by_cases hs : res.StatusCode = StatusOK
    · simp [hs, isParseErr, ErrCapturePaymentIntentFailed]
    · simp [hs, isParseErr, ErrCapturePaymentIntentFailed]

theorem StartNewRPCSession_frame (tsCtx : TerminalSessionContext)
    (transport : HTTPRequest → TransportResult) :
    (StartNewRPCSession tsCtx transport).trace.requests = [rpcSessionRequest tsCtx] ∧
    (StartNewRPCSession tsCtx transport).finalCtx = tsCtx ∧
    3 ≤ (StartNewRPCSession tsCtx transport).site ∧
    isParseErr (StartNewRPCSession tsCtx transport).err = false := by
  rw [StartNewRPCSession_eq]
  cases transport (rpcSessionRequest tsCtx) with
  | failure msg => exact ⟨rfl, rfl, Nat.le_refl _, rfl⟩
  | success res =>
    by_cases hs : res.StatusCode = StatusOK
    · simp [hs, isParseErr, ErrCapturePaymentIntentFailed]
    · simp [hs, isParseErr, ErrCapturePaymentIntentFailed]

theorem GetNewConnectionToken_frame (tsCtx : TerminalSessionContext)
    (transport : HTTPRequest → TransportResult) :
    (GetNewConnectionToken tsCtx transport).trace.requests = [connectionTokenRequest tsCtx] ∧
    (GetNewConnectionToken tsCtx transport).finalCtx = tsCtx ∧
    2 ≤ (GetNewConnectionToken tsCtx transport).site ∧
    isParseErr (GetNewConnectionToken tsCtx transport).err = false := by
  rw [GetNewConnectionToken_eq]
  cases transport (connectionTokenRequest tsCtx) with
  | failure msg => exact ⟨rfl, rfl, Nat.le_refl _, rfl⟩
  | success res =>
    by_cases hs : res.StatusCode = StatusOK
    · simp [hs, isParseErr, ErrCapturePaymentIntentFailed]
    · simp [hs, isParseErr, ErrCapturePaymentIntentFailed]

theorem CreatePaymentIntent_frame (tsCtx : TerminalSessionContext)
    (transport : HTTPRequest → TransportResult) :
    (CreatePaymentIntent tsCtx transport).trace.requests = [createPaymentIntentRequest tsCtx] ∧
    (CreatePaymentIntent tsCtx transport).finalCtx = tsCtx ∧
    2 ≤ (CreatePaymentIntent tsCtx transport).site ∧
    isParseErr (CreatePaymentIntent tsCtx transport).err = false := by
  rw [CreatePaymentIntent_eq]
  cases transport (createPaymentIntentRequest tsCtx) with
  | failure msg => exact ⟨rfl, rfl, Nat.le_refl _, rfl⟩
  | success res =>
    by_cases hs : res.StatusCode = StatusOK
    · simp [hs, isParseErr, ErrCapturePaymentIntentFailed]
    · simp [hs, isParseErr, ErrCapturePaymentIntentFailed]

theorem CapturePaymentIntent_frame (tsCtx : TerminalSessionContext)
    (transport : HTTPRequest → TransportResult) :
    (CapturePaymentIntent tsCtx transport).trace.requests = [captureRequest tsCtx] ∧
    (CapturePaymentIntent tsCtx transport).finalCtx = tsCtx ∧
    2 ≤ (CapturePaymentIntent tsCtx transport).site ∧
    isParseErr (CapturePaymentIntent tsCtx transport).err = false := by
  rw [CapturePaymentIntent_eq]
  cases transport (captureRequest tsCtx) with
  | failure msg => exact ⟨rfl, rfl, Nat.le_refl _, rfl⟩
  | success res =>
    by_cases hs : res.StatusCode = StatusOK
    · simp [hs, isParseErr, ErrCapturePaymentIntentFailed]
    · simp [hs, isParseErr, ErrCapturePaymentIntentFailed]

theorem RegisterReader_frame (regcode : String) (tsCtx : TerminalSessionContext)
    (transport : HTTPRequest → TransportResult) :
    (RegisterReader regcode tsCtx transport).trace.requests = [registerRequest regcode tsCtx] ∧
    (RegisterReader regcode tsCtx transport).finalCtx = tsCtx ∧
    2 ≤ (RegisterReader regcode tsCtx transport).site ∧
    isParseErr (RegisterReader regcode tsCtx transport).err = false := by
  rw [RegisterReader_eq]
  cases transport (registerRequest regcode tsCtx) with
  | failure msg => exact ⟨rfl, rfl, Nat.le_refl _, rfl⟩
  | success res =>
    by_cases hs : res.StatusCode = StatusOK
    · simp [hs, isParseErr, ErrCapturePaymentIntentFailed]
    · simp [hs, isParseErr, ErrCapturePaymentIntentFailed]

/-- Appending a field with a different key to a JSON object does not
change what `jsonLookup` finds for the original key. -/
theorem jsonLookup_append_ne (fs : List (String × JSONValue)) (k k2 : String)
    (v : JSONValue) (h : (k2 == k) = false) :
    jsonLookup (fs ++ [(k2, v)]) k = jsonLookup fs k := by
  simp [jsonLookup, h]

/-! ## Claims -/

/-- C1 counterexample: the claim requires a non-nil error on every
non-200 response, but on a 500 response delivered by a successful
transport `DiscoverReaders` returns a nil error together with the empty
list. -/
theorem C1_counterexample :
    (DiscoverReaders ctx0
        (fun _ => TransportResult.success ⟨500, Option.some (JSONValue.obj [])⟩)).err
      = Option.none ∧
    (DiscoverReaders ctx0
        (fun _ => TransportResult.success ⟨500, Option.some (JSONValue.obj [])⟩)).value
      = [] ∧
    ((500 : Nat) == StatusOK) = false := ⟨rfl, rfl, rfl⟩

/-- C1 (amended): for every response whose HTTP status is not 200, every
operation returns a zero-valued/empty result; the error is nil for the
five non-capture operations (the transport error variable, nil on a mere
status failure), and the non-nil sentinel for `CapturePaymentIntent`.  No
operation returns a decoded success value on such a response. -/
theorem C1_amended (tsCtx : TerminalSessionContext) (regcode : String)
    (res : HTTPResponse) (h : res.StatusCode ≠ StatusOK) :
    (DiscoverReaders tsCtx (fun _ => TransportResult.success res)).value = [] ∧
    (DiscoverReaders tsCtx (fun _ => TransportResult.success res)).err = Option.none ∧
    (StartNewRPCSession tsCtx (fun _ => TransportResult.success res)).value = "" ∧
    (StartNewRPCSession tsCtx (fun _ => TransportResult.success res)).err = Option.none ∧
    (GetNewConnectionToken tsCtx (fun _ => TransportResult.success res)).value = "" ∧
    (GetNewConnectionToken tsCtx (fun _ => TransportResult.success res)).err = Option.none ∧
    (CreatePaymentIntent tsCtx (fun _ => TransportResult.success res)).value = "" ∧
    (CreatePaymentIntent tsCtx (fun _ => TransportResult.success res)).err = Option.none ∧
    (RegisterReader regcode tsCtx (fun _ => TransportResult.success res)).value = "" ∧
    (RegisterReader regcode tsCtx (fun _ => TransportResult.success res)).err = Option.none ∧
    (CapturePaymentIntent tsCtx (fun _ => TransportResult.success res)).err
      = Option.some ErrCapturePaymentIntentFailed := by
  rw [DiscoverReaders_eq, StartNewRPCSession_eq, GetNewConnectionToken_eq,
    CreatePaymentIntent_eq, RegisterReader_eq, CapturePaymentIntent_eq]
  simp [h]

/-- C1 witness: the amended statement applied at a concrete 500
response. -/
theorem C1_amended_witness :
    (500 : Nat) ≠ StatusOK ∧
    ((DiscoverReaders ctx0 (fun _ => TransportResult.success ⟨500, Option.none⟩)).value = [] ∧
     (DiscoverReaders ctx0 (fun _ => TransportResult.success ⟨500, Option.none⟩)).err
       = Option.none ∧
     (StartNewRPCSession ctx0 (fun _ => TransportResult.success ⟨500, Option.none⟩)).value
       = "" ∧
     (StartNewRPCSession ctx0 (fun _ => TransportResult.success ⟨500, Option.none⟩)).err
       = Option.none ∧
     (GetNewConnectionToken ctx0 (fun _ => TransportResult.success ⟨500, Option.none⟩)).value
       = "" ∧
     (GetNewConnectionToken ctx0 (fun _ => TransportResult.success ⟨500, Option.none⟩)).err
       = Option.none ∧
     (CreatePaymentIntent ctx0 (fun _ => TransportResult.success ⟨500, Option.none⟩)).value
       = "" ∧
     (CreatePaymentIntent ctx0 (fun _ => TransportResult.success ⟨500, Option.none⟩)).err
       = Option.none ∧
     (RegisterReader "reg-1" ctx0 (fun _ => TransportResult.success ⟨500, Option.none⟩)).value
       = "" ∧
     (RegisterReader "reg-1" ctx0 (fun _ => TransportResult.success ⟨500, Option.none⟩)).err
       = Option.none ∧
     (CapturePaymentIntent ctx0 (fun _ => TransportResult.success ⟨500, Option.none⟩)).err
       = Option.some ErrCapturePaymentIntentFailed) :=
  ⟨by decide, C1_amended ctx0 "reg-1" ⟨500, Option.none⟩ (by decide)⟩

/-- C2: the request built by `StartNewRPCSession` carries an
Authorization header whose bearer credential is `ctx.PstToken`, while
every other operation authenticates with `ctx.APIKey` as the bearer
credential of its single request. -/
theorem C2_auth_boundary (tsCtx : TerminalSessionContext) (regcode : String)
    (transport : HTTPRequest → TransportResult) :
    (StartNewRPCSession tsCtx transport).trace.requests.map
        (fun r => getHeader r "Authorization")
      = [Option.some ("Bearer " ++ tsCtx.PstToken)] ∧
    (DiscoverReaders tsCtx transport).trace.requests.map
        (fun r => getHeader r "Authorization")
      = [Option.some ("Bearer " ++ tsCtx.APIKey)] ∧
    (GetNewConnectionToken tsCtx transport).trace.requests.map
        (fun r => getHeader r "Authorization")
      = [Option.some ("Bearer " ++ tsCtx.APIKey)] ∧
    (CreatePaymentIntent tsCtx transport).trace.requests.map
        (fun r => getHeader r "Authorization")
      = [Option.some ("Bearer " ++ tsCtx.APIKey)] ∧
    (CapturePaymentIntent tsCtx transport).trace.requests.map
        (fun r => getHeader r "Authorization")
      = [Option.some ("Bearer " ++ tsCtx.APIKey)] ∧
    (RegisterReader regcode tsCtx transport).trace.requests.map
        (fun r => getHeader r "Authorization")
      = [Option.some ("Bearer " ++ tsCtx.APIKey)] := by
  refine ⟨?_, ?_, ?_, ?_, ?_, ?_⟩
  · rw [(StartNewRPCSession_frame tsCtx transport).1]; rfl
  · rw [(DiscoverReaders_frame tsCtx transport).1]; rfl
  · rw [(GetNewConnectionToken_frame tsCtx transport).1]; rfl
  · rw [(CreatePaymentIntent_frame tsCtx transport).1]; rfl
  · rw [(CapturePaymentIntent_frame tsCtx transport).1]; rfl
  · rw [(RegisterReader_frame regcode tsCtx transport).1]; rfl

/-- C3: the form body sent by `CreatePaymentIntent` consists of exactly
the fields amount (the stringified `ctx.Amount`), currency
(`ctx.Currency`), `payment_method_types[]` equal to `card_present`,
`capture_method` equal to `manual`, and the fixed description string;
its single request's body is the encoding of exactly those fields. -/
theorem C3_payment_intent_form (tsCtx : TerminalSessionContext)
    (transport : HTTPRequest → TransportResult) :
    createPaymentIntentData tsCtx =
      [("amount", toString tsCtx.Amount), ("currency", tsCtx.Currency),
       ("payment_method_types[]", "card_present"), ("capture_method", "manual"),
       ("description", "Stripe CLI Test Payment")] ∧
    (CreatePaymentIntent tsCtx transport).trace.requests.map (fun r => r.body)
      = [valuesEncode (createPaymentIntentData tsCtx)] := by
  refine ⟨rfl, ?_⟩
  rw [(CreatePaymentIntent_frame tsCtx transport).1]; rfl

/-- C4: `CapturePaymentIntent` returns the sentinel
`ErrCapturePaymentIntentFailed` whenever the transport fails or the
response status is not 200 (regardless of the response body), and returns
a nil error exactly when the transport succeeds with status 200. -/
theorem C4_capture_sentinel (tsCtx : TerminalSessionContext)
    (transport : HTTPRequest → TransportResult) :
    (CapturePaymentIntent tsCtx transport).err =
      (match transport (captureRequest tsCtx) with
        | TransportResult.failure _ => Option.some ErrCapturePaymentIntentFailed
        | TransportResult.success res =>
          if res.StatusCode = StatusOK then Option.none
          else Option.some ErrCapturePaymentIntentFailed) := by
  rw [CapturePaymentIntent_eq]
  cases transport (captureRequest tsCtx) with
  | failure msg => rfl
  | success res =>
    by_cases hs : res.StatusCode = StatusOK
    · simp [hs]
    · simp [hs]

/-- C5 evaluation at the failing input: on a 402 response delivered by a
successful transport, `CapturePaymentIntent` and `DiscoverReaders`
acquire the response body but return without closing it
(`bodyCloses = 0`), contradicting the close-on-every-exit-path design;
on the 200 path the body is closed exactly once. -/
theorem C5_body_not_closed_on_non200 :
    (CapturePaymentIntent ctx0 (fun _ => TransportResult.success ⟨402, Option.none⟩)).trace
      = ⟨[captureRequest ctx0], 1, 0⟩ ∧
    (DiscoverReaders ctx0
        (fun _ => TransportResult.success ⟨402, Option.some (JSONValue.obj [])⟩)).trace
      = ⟨[discoverRequest ctx0], 1, 0⟩ ∧
    (DiscoverReaders ctx0
        (fun _ => TransportResult.success ⟨200, Option.some (JSONValue.obj [])⟩)).trace
      = ⟨[discoverRequest ctx0], 1, 1⟩ := ⟨rfl, rfl, rfl⟩

/-- C6 counterexample: a 200 envelope whose `data` array repeats the id
"tmr_1"; `DiscoverReaders` returns both readers unchanged, so the IDs of
the returned readers are not pairwise distinct as the claim requires. -/
theorem C6_counterexample :
    ((DiscoverReaders ctx0 (fun _ => TransportResult.success ⟨200, bodyDupIds⟩)).value.map
        (fun r => r.ID)) = ["tmr_1", "tmr_1"] ∧
    decide (((DiscoverReaders ctx0
        (fun _ => TransportResult.success ⟨200, bodyDupIds⟩)).value.map
        (fun r => r.ID)).Nodup) = false := ⟨rfl, rfl⟩

/-- C6 (amended): on every 200 response, `DiscoverReaders` returns
exactly the decoded `data` array of the envelope, preserving the order of
its elements; consequently the IDs of the returned readers are pairwise
distinct whenever the IDs in the decoded `data` array are (the operation
neither deduplicates nor reorders). -/
theorem C6_amended (tsCtx : TerminalSessionContext) (body : Option JSONValue)
    (h : ((decodeReadersResponse body).1.Data.map (fun r => r.ID)).Nodup) :
    (DiscoverReaders tsCtx (fun _ => TransportResult.success ⟨StatusOK, body⟩)).value
      = (decodeReadersResponse body).1.Data ∧
    ((DiscoverReaders tsCtx (fun _ => TransportResult.success ⟨StatusOK, body⟩)).value.map
        (fun r => r.ID)).Nodup := ⟨rfl, h⟩

/-- C6 witness: the amended statement applied at the two-reader envelope
from the spec's scenario. -/
theorem C6_amended_witness :
    ((decodeReadersResponse bodyTmr12).1.Data.map (fun r => r.ID)).Nodup ∧
    ((DiscoverReaders ctx0 (fun _ => TransportResult.success ⟨StatusOK, bodyTmr12⟩)).value
        = (decodeReadersResponse bodyTmr12).1.Data ∧
     ((DiscoverReaders ctx0
         (fun _ => TransportResult.success ⟨StatusOK, bodyTmr12⟩)).value.map
        (fun r => r.ID)).Nodup) :=
  ⟨by decide, C6_amended ctx0 bodyTmr12 (by decide)⟩

/-- C7: every operation issues exactly one remote request per invocation
(hence no retries); the `DiscoverReaders` request is a single GET; and on
a 200 response the value `DiscoverReaders` returns does not depend on the
envelope's `has_more` field (no pagination traversal). -/
theorem C7_single_request_no_pagination (tsCtx : TerminalSessionContext) (regcode : String)
    (transport : HTTPRequest → TransportResult) :
    (DiscoverReaders tsCtx transport).trace.requests = [discoverRequest tsCtx] ∧
    (discoverRequest tsCtx).method = "GET" ∧
    (StartNewRPCSession tsCtx transport).trace.requests.length = 1 ∧
    (GetNewConnectionToken tsCtx transport).trace.requests.length = 1 ∧
    (CreatePaymentIntent tsCtx transport).trace.requests.length = 1 ∧
    (CapturePaymentIntent tsCtx transport).trace.requests.length = 1 ∧
    (RegisterReader regcode tsCtx transport).trace.requests.length = 1 ∧
    (∀ fs b1 b2,
      (DiscoverReaders tsCtx (fun _ => TransportResult.success ⟨StatusOK,
          Option.some (JSONValue.obj (fs ++ [("has_more", JSONValue.bool b1)]))⟩)).value
        = (DiscoverReaders tsCtx (fun _ => TransportResult.success ⟨StatusOK,
          Option.some (JSONValue.obj (fs ++ [("has_more", JSONValue.bool b2)]))⟩)).value) := by
  refine ⟨(DiscoverReaders_frame tsCtx transport).1, rfl, ?_, ?_, ?_, ?_, ?_, ?_⟩
  · rw [(StartNewRPCSession_frame tsCtx transport).1]; rfl
  · rw [(GetNewConnectionToken_frame tsCtx transport).1]; rfl
  · rw [(CreatePaymentIntent_frame tsCtx transport).1]; rfl
  · rw [(CapturePaymentIntent_frame tsCtx transport).1]; rfl
  · rw [(RegisterReader_frame regcode tsCtx transport).1]; rfl
  · intro fs b1 b2
    have e1 := jsonLookup_append_ne fs "data" "has_more" (JSONValue.bool b1) rfl
    have e2 := jsonLookup_append_ne fs "data" "has_more" (JSONValue.bool b2) rfl
    rw [DiscoverReaders_eq, DiscoverReaders_eq]
    simp [decodeReadersResponse, decodeDataField, e1, e2]

/-- C8: for every operation that decodes a JSON response, on a 200
response whose body is malformed JSON the decoder's error is discarded
(the decoders do produce one: their error flag is true) and the operation
returns the zero values of the undecoded fields together with a nil
error. -/
theorem C8_decode_error_discarded (tsCtx : TerminalSessionContext) (regcode : String) :
    (decodeReadersResponse Option.none).2 = true ∧
    (decodeStartNewRPCSessionResponse Option.none).2 = true ∧
    (decodeGetConnectionTokenResponse Option.none).2 = true ∧
    (decodeCreatePaymentIntentResponse Option.none).2 = true ∧
    (decodeRegisterReaderResponse Option.none).2 = true ∧
    (DiscoverReaders tsCtx (fun _ => TransportResult.success ⟨StatusOK, Option.none⟩)).value
      = [] ∧
    (DiscoverReaders tsCtx (fun _ => TransportResult.success ⟨StatusOK, Option.none⟩)).err
      = Option.none ∧
    (StartNewRPCSession tsCtx (fun _ => TransportResult.success ⟨StatusOK, Option.none⟩)).value
      = "" ∧
    (StartNewRPCSession tsCtx (fun _ => TransportResult.success ⟨StatusOK, Option.none⟩)).err
      = Option.none ∧
    (GetNewConnectionToken tsCtx
        (fun _ => TransportResult.success ⟨StatusOK, Option.none⟩)).value = "" ∧
    (GetNewConnectionToken tsCtx
        (fun _ => TransportResult.success ⟨StatusOK, Option.none⟩)).err = Option.none ∧
    (CreatePaymentIntent tsCtx (fun _ => TransportResult.success ⟨StatusOK, Option.none⟩)).value
      = "" ∧
    (CreatePaymentIntent tsCtx (fun _ => TransportResult.success ⟨StatusOK, Option.none⟩)).err
      = Option.none ∧
    (RegisterReader regcode tsCtx
        (fun _ => TransportResult.success ⟨StatusOK, Option.none⟩)).value = "" ∧
    (RegisterReader regcode tsCtx
        (fun _ => TransportResult.success ⟨StatusOK, Option.none⟩)).err = Option.none :=
  ⟨rfl, rfl, rfl, rfl, rfl, rfl, rfl, rfl, rfl, rfl, rfl, rfl, rfl, rfl, rfl⟩

/-- C9: no operation mutates the session context it receives: the
operation's view of the context at return equals the context passed in,
for all six operations, every context and every transport behaviour;
derived values are only returned as results. -/
theorem C9_context_not_mutated (tsCtx : TerminalSessionContext) (regcode : String)
    (transport : HTTPRequest → TransportResult) :
    (DiscoverReaders tsCtx transport).finalCtx = tsCtx ∧
    (StartNewRPCSession tsCtx transport).finalCtx = tsCtx ∧
    (GetNewConnectionToken tsCtx transport).finalCtx = tsCtx ∧
    (CreatePaymentIntent tsCtx transport).finalCtx = tsCtx ∧
    (CapturePaymentIntent tsCtx transport).finalCtx = tsCtx ∧
    (RegisterReader regcode tsCtx transport).finalCtx = tsCtx :=
  ⟨(DiscoverReaders_frame tsCtx transport).2.1,
   (StartNewRPCSession_frame tsCtx transport).2.1,
   (GetNewConnectionToken_frame tsCtx transport).2.1,
   (CreatePaymentIntent_frame tsCtx transport).2.1,
   (CapturePaymentIntent_frame tsCtx transport).2.1,
   (RegisterReader_frame regcode tsCtx transport).2.1⟩

/-- C10: the base URL constant parses successfully, so the `url.Parse`
error branch at the start of every operation is unreachable: no operation
ever returns a URL-parse error, and every result comes from return site 3
or later in `DiscoverReaders` (site 1, the parse-error return, and site
2, the duplicated second `err` check, are dead code) and from site 2 or
later in the other operations (site 1 is their parse-error return). -/
theorem C10_parse_branch_unreachable (tsCtx : TerminalSessionContext) (regcode : String)
    (transport : HTTPRequest → TransportResult) :
    goUrlParse DefaultAPIBaseURL = (DefaultAPIBaseURL, Option.none) ∧
    3 ≤ (DiscoverReaders tsCtx transport).site ∧
    isParseErr (DiscoverReaders tsCtx transport).err = false ∧
    3 ≤ (StartNewRPCSession tsCtx transport).site ∧
    isParseErr (StartNewRPCSession tsCtx transport).err = false ∧
    2 ≤ (GetNewConnectionToken tsCtx transport).site ∧
    isParseErr (GetNewConnectionToken tsCtx transport).err = false ∧
    2 ≤ (CreatePaymentIntent tsCtx transport).site ∧
    isParseErr (CreatePaymentIntent tsCtx transport).err = false ∧
    2 ≤ (CapturePaymentIntent tsCtx transport).site ∧
    isParseErr (CapturePaymentIntent tsCtx transport).err = false ∧
    2 ≤ (RegisterReader regcode tsCtx transport).site ∧
    isParseErr (RegisterReader regcode tsCtx transport).err = false :=
  ⟨rfl,
   (DiscoverReaders_frame tsCtx transport).2.2.1,
   (DiscoverReaders_frame tsCtx transport).2.2.2,
   (StartNewRPCSession_frame tsCtx transport).2.2.1,
   (StartNewRPCSession_frame tsCtx transport).2.2.2,
   (GetNewConnectionToken_frame tsCtx transport).2.2.1,
   (GetNewConnectionToken_frame tsCtx transport).2.2.2,
   (CreatePaymentIntent_frame tsCtx transport).2.2.1,
   (CreatePaymentIntent_frame tsCtx transport).2.2.2,
   (CapturePaymentIntent_frame tsCtx transport).2.2.1,
   (CapturePaymentIntent_frame tsCtx transport).2.2.2,
   (RegisterReader_frame regcode tsCtx transport).2.2.1,
   (RegisterReader_frame regcode tsCtx transport).2.2.2⟩
